import Mathlib

/-!
Shallow embedding of the fusedav local file cache (`src/ldb-filecache.c`).

The C module manages a leveldb-backed cache of remote files: per-open
session data (`struct ldb_filecache_sdata`), persistent per-path records
(`struct ldb_filecache_pdata`), a freshness resolver (`ldb_get_fresh_fd`)
that revalidates or refetches the cached copy, and open/read/write/sync/
release operations.  External effects (leveldb, libneon HTTP, the local
filesystem, `time(NULL)`) are modelled as explicit environment records;
each operation is a pure function from its environment and input state to
a result record that also carries the ordered list of observable actions
the C code performs.
-/

namespace LdbFilecache

/-- REFRESH_INTERVAL from the C source (seconds a cache entry stays fresh). -/
def REFRESH_INTERVAL : Int := 3

/-- Linux open(2) access-mode flag O_RDONLY; its value is zero. -/
def O_RDONLY : Nat := 0

/-- Linux open(2) access-mode flag O_WRONLY. -/
def O_WRONLY : Nat := 1

/-- Linux open(2) access-mode flag O_RDWR. -/
def O_RDWR : Nat := 2

/-- The errno value EBADF (bad file descriptor), which POSIX prescribes for
a write on a descriptor not open for writing; `ldb_filecache_write` sets it
when the handle is not writable. -/
def EBADF : Int := 9

/-- The errno value EIO, negated by `ldb_filecache_open` when no libneon
session can be obtained. -/
def EIO_errno : Int := 5

/-- Session data: in-memory per-open state (`struct ldb_filecache_sdata`).
The C struct holds the descriptor, a filename buffer used only for new
replacement files, and the readable/writable/modified flags. -/
structure Sdata where
  fd : Int
  filename : String
  readable : Bool
  writable : Bool
  modified : Bool
deriving DecidableEq

/-- Persistent data stored in leveldb (`struct ldb_filecache_pdata`):
local cache filename, etag validator, and last server-update time. -/
structure Pdata where
  filename : String
  etag : String
  last_server_update : Int
deriving DecidableEq

/-- Outcome of the raw `leveldb_get` call inside `ldb_filecache_pdata_get`:
either the store reported an error (`errptr` was set), or the key was
absent (NULL value pointer), or a record was found. -/
inductive LevelDbGet where
  | storeError (msg : String)
  | miss
  | found (p : Pdata)
deriving DecidableEq

/-- Embedding of `ldb_filecache_pdata_get`: on a leveldb error the C code
logs the message, frees it and returns NULL; on a miss it returns NULL;
otherwise it returns the stored record.  Both the error case and the miss
case therefore produce the same `none` result. -/
def ldb_filecache_pdata_get : LevelDbGet → Option Pdata
  | .storeError _ => none
  | .miss => none
  | .found p => some p

/-- The definitive HTTP response the resolver's request loop ends on. -/
inductive HttpResponse where
  | notModified
  | fullContent (etag : String)
  | otherCode (code : Nat)
deriving DecidableEq

/-- Observable actions of one `ldb_get_fresh_fd` run, in program order:
issuing the remote GET, `ne_read_response_to_fd` returning after streaming
the complete body into a staging file (`stageComplete`) or returning a
failure with the body only partially streamed (`stageFailed`), persisting
a record with `ldb_filecache_pdata_set`, unlinking a file, and opening a
local cache file with `open(..., O_APPEND)`. -/
inductive Event where
  | remoteRequest
  | stageComplete (filename : String)
  | stageFailed (filename : String)
  | persistEntry (p : Pdata)
  | unlinkFile (filename : String)
  | openLocal (filename : String)
deriving DecidableEq

/-- Environment of one `ldb_get_fresh_fd` call: the leveldb lookup outcome,
the current time, whether request creation and `ne_begin_request` succeed,
the definitive response, the name and descriptor `mkstemp` produces for a
new staging file (a failed `mkstemp` shows up as a negative `newFd`, since
`new_cache_file` stores the raw `mkstemp` result through its out
parameter), whether `ne_read_response_to_fd` streams the full body
successfully, and the descriptor `open(name, O_APPEND)` returns for a
given existing cache file. -/
structure FetchEnv where
  dbGet : LevelDbGet
  now : Int
  requestOk : Bool
  response : HttpResponse
  newFile : String
  newFd : Int
  streamOk : Bool
  openAt : String → Int

/-- Result of `ldb_get_fresh_fd`: the returned descriptor, the ordered
observable actions, and the record written to leveldb, if any. -/
structure FetchResult where
  fd : Int
  events : List Event
  persisted : Option Pdata
deriving DecidableEq

/-- Embedding of `ldb_get_fresh_fd`.  It looks up the persistent record;
if one exists and `now - last_server_update <= REFRESH_INTERVAL` the cached
file is fresh and is simply reopened.  Otherwise a conditional GET is
issued (with If-None-Match when a record exists).  On 304 the record's
`last_server_update` is stamped to now, persisted, and the existing file
reopened.  On 200 a new staging file receives the body; with no prior
record a fresh record is filled in, including the response ETag; with a
prior record the old filename is remembered, the record's filename is
overwritten with the new staging file (the ETag field is left as it was:
the C code reads the ETag header only in the no-prior-record branch), the
record is persisted, and the old file is unlinked afterwards.  The C code
ignores the return values of both `new_cache_file` and
`ne_read_response_to_fd`: a failed `mkstemp` (negative `newFd`) or a
failed or partial body stream (`streamOk = false`, recorded as a
`stageFailed` action instead of `stageComplete`) does not stop it, so the
record is persisted and the old file unlinked regardless.  Any other
status code ends the resolution with no descriptor. -/
def ldb_get_fresh_fd (env : FetchEnv) : FetchResult :=
  match ldb_filecache_pdata_get env.dbGet with
  | some p =>
    if env.now - p.last_server_update ≤ REFRESH_INTERVAL then
      { fd := env.openAt p.filename
        events := [.openLocal p.filename]
        persisted := none }
    else if !env.requestOk then
      { fd := -1, events := [], persisted := none }
    else
      match env.response with
      | .notModified =>
        let p2 : Pdata := { p with last_server_update := env.now }
        { fd := env.openAt p.filename
          events := [.remoteRequest, .persistEntry p2, .openLocal p.filename]
          persisted := some p2 }
      | .fullContent _ =>
        let p2 : Pdata := { p with filename := env.newFile, last_server_update := env.now }
        { fd := env.newFd
          events := [.remoteRequest,
                     if env.streamOk then .stageComplete env.newFile
                     else .stageFailed env.newFile,
                     .persistEntry p2, .unlinkFile p.filename]
          persisted := some p2 }
      | .otherCode _ =>
        { fd := -1, events := [.remoteRequest], persisted := none }
  | none =>
    if !env.requestOk then
      { fd := -1, events := [], persisted := none }
    else
      match env.response with
      | .notModified =>
        { fd := -1, events := [.remoteRequest], persisted := none }
      | .fullContent etag =>
        let p2 : Pdata := { filename := env.newFile, etag := etag, last_server_update := env.now }
        { fd := env.newFd
          events := [.remoteRequest,
                     if env.streamOk then .stageComplete env.newFile
                     else .stageFailed env.newFile,
                     .persistEntry p2]
          persisted := some p2 }
      | .otherCode _ =>
        { fd := -1, events := [.remoteRequest], persisted := none }

/-- Events of `ldb_filecache_sync`: the `ne_put` upload of the handle's
bytes, and the synthetic-attribute publish via `stat_cache_value_set`. -/
inductive SyncEvent where
  | upload
  | statUpdate (size : Int)
deriving DecidableEq

/-- Environment of one `ldb_filecache_sync` call: whether `lseek` to the
start succeeds, whether a libneon session is obtained, whether the PUT
succeeds, and the end-of-file position used as the published size. -/
structure SyncEnv where
  lseekOk : Bool
  sessionOk : Bool
  putOk : Bool
  endPos : Int
deriving DecidableEq

/-- Result of `ldb_filecache_sync`: the returned code, the session data
after the call, and the ordered observable actions. -/
structure SyncResult where
  ret : Int
  sdata : Sdata
  events : List SyncEvent
deriving DecidableEq

/-- Embedding of `ldb_filecache_sync`.  Returns 0 immediately when the
handle is not writable, or writable but not modified.  Otherwise it seeks
to the start, obtains a session, uploads the bytes with `ne_put`, and on
success publishes synthetic attributes with the end-of-file size.  The C
function never assigns any field of `sdata`; in particular `modified` is
not cleared after a successful upload. -/
def ldb_filecache_sync (env : SyncEnv) (sdata : Sdata) : SyncResult :=
  if !sdata.writable then
    { ret := 0, sdata := sdata, events := [] }
  else if !sdata.modified then
    { ret := 0, sdata := sdata, events := [] }
  else if !env.lseekOk then
    { ret := -1, sdata := sdata, events := [] }
  else if !env.sessionOk then
    { ret := -1, sdata := sdata, events := [] }
  else if !env.putOk then
    { ret := -1, sdata := sdata, events := [.upload] }
  else
    { ret := 0, sdata := sdata, events := [.upload, .statUpdate env.endPos] }

/-- Embedding of `ldb_filecache_close`: the C helper calls `close(fd)`
exactly when `fd >= 0`; the returned Bool records whether close ran. -/
def ldb_filecache_close (sdata : Sdata) : Bool :=
  if sdata.fd ≥ 0 then true else false

/-- Result of `ldb_filecache_release`: the returned code and whether the
descriptor was closed during the call. -/
structure ReleaseResult where
  ret : Int
  closed : Bool
deriving DecidableEq

/-- Embedding of `ldb_filecache_release`: it calls `ldb_filecache_sync`;
when sync returns a negative code the C code jumps to `finish` and returns
that code without calling `ldb_filecache_close`; otherwise it closes the
descriptor and returns 0. -/
def ldb_filecache_release (env : SyncEnv) (sdata : Sdata) : ReleaseResult :=
  let s := ldb_filecache_sync env sdata
  if s.ret < 0 then
    { ret := s.ret, closed := false }
  else
    { ret := 0, closed := ldb_filecache_close s.sdata }

/-- Environment of one `ldb_filecache_write` call: what `pwrite` returns
(negative means failure) and the errno a failed `pwrite` leaves. -/
structure WriteEnv where
  pwriteRet : Int
  errnoAfter : Int
deriving DecidableEq

/-- Result of `ldb_filecache_write`: the returned byte count or error, the
errno value this function itself assigned (if any), the session data after
the call, and whether `pwrite` was invoked at all. -/
structure WriteResult where
  ret : Int
  errnoSet : Option Int
  sdata : Sdata
  pwriteCalled : Bool
deriving DecidableEq

/-- Embedding of `ldb_filecache_write`.  When the handle is not writable
the C code sets `errno = EBADF`, sets the return value to 0 and jumps to
`finish` without calling `pwrite` or touching `modified`.  Otherwise it
calls `pwrite`; a negative result returns `-errno`; on success it marks
the handle modified and returns the byte count. -/
def ldb_filecache_write (env : WriteEnv) (sdata : Sdata) : WriteResult :=
  if !sdata.writable then
    { ret := 0, errnoSet := some EBADF, sdata := sdata, pwriteCalled := false }
  else if env.pwriteRet < 0 then
    { ret := -env.errnoAfter, errnoSet := none, sdata := sdata, pwriteCalled := true }
  else
    { ret := env.pwriteRet, errnoSet := none
      sdata := { sdata with modified := true }, pwriteCalled := true }

/-- Derivation of the `readable` flag in `ldb_filecache_open`: the C code
runs `if (flags & O_RDONLY || flags & O_RDWR) sdata->readable = 1;` on the
zeroed struct, so the flag becomes true exactly when one of the two
bitwise tests is nonzero. -/
def deriveReadable (flags : Nat) : Bool :=
  (flags &&& O_RDONLY != 0) || (flags &&& O_RDWR != 0)

/-- Derivation of the `writable` flag in `ldb_filecache_open`: the C code
runs `if (flags & O_WRONLY || flags & O_RDWR) sdata->writable = 1;`. -/
def deriveWritable (flags : Nat) : Bool :=
  (flags &&& O_WRONLY != 0) || (flags &&& O_RDWR != 0)

/-- Environment of one `ldb_filecache_open` call: whether `session_get`
and the `sdata` malloc succeed, whether `new_cache_file` succeeds for a
replace-open together with the name and descriptor it yields, and the
full resolver environment used by a resolve-open. -/
structure OpenEnv where
  sessionOk : Bool
  mallocOk : Bool
  newFileOk : Bool
  newFile : String
  newFd : Int
  fetch : FetchEnv

/-- Result of `ldb_filecache_open`: the returned code, the session data
installed into `info->fh` (none when `fh` was set to NULL), whether
`ldb_get_fresh_fd` was invoked, the size published to the stat cache (if
any), and whether the allocated session data was freed. -/
structure OpenResult where
  ret : Int
  fh : Option Sdata
  resolverCalled : Bool
  statSizePublished : Option Int
  sdataFreed : Bool
deriving DecidableEq

/-- Tail of `ldb_filecache_open` after a descriptor has been produced: the
readable/writable flags are derived from the requested mode, then the C
code tests `sdata->fd > 0`; on success it installs the struct into
`info->fh` and returns 0, otherwise it falls into the `fail` label, sets
`info->fh` to NULL, frees the struct, and returns the pending -1. -/
def openFinish (sdata0 : Sdata) (flags : Nat) (resolverCalled : Bool)
    (statSizePublished : Option Int) : OpenResult :=
  let sdata : Sdata :=
    { sdata0 with readable := deriveReadable flags, writable := deriveWritable flags }
  if sdata.fd > 0 then
    { ret := 0, fh := some sdata, resolverCalled := resolverCalled
      statSizePublished := statSizePublished, sdataFreed := false }
  else
    { ret := -1, fh := none, resolverCalled := resolverCalled
      statSizePublished := statSizePublished, sdataFreed := true }

/-- Embedding of `ldb_filecache_open`.  Failure to obtain a session
returns `-EIO`; a failed malloc returns the initial -1.  With `replace`
set the C code marks the zeroed struct `modified = true`, creates a new
staging file directly (failing the open if `new_cache_file` fails), and
publishes size-zero synthetic attributes to the stat cache; without
`replace` it obtains the descriptor from `ldb_get_fresh_fd`.  Both paths
then run the flag derivation and the final `fd > 0` test. -/
def ldb_filecache_open (env : OpenEnv) (flags : Nat) (replace : Bool) : OpenResult :=
  if !env.sessionOk then
    { ret := -EIO_errno, fh := none, resolverCalled := false
      statSizePublished := none, sdataFreed := false }
  else if !env.mallocOk then
    { ret := -1, fh := none, resolverCalled := false
      statSizePublished := none, sdataFreed := false }
  else if replace then
    if !env.newFileOk then
      { ret := -1, fh := none, resolverCalled := false
        statSizePublished := none, sdataFreed := true }
    else
      openFinish
        { fd := env.newFd, filename := env.newFile
          readable := false, writable := false, modified := true }
        flags false (some 0)
  else
    openFinish
      { fd := (ldb_get_fresh_fd env.fetch).fd, filename := ""
        readable := false, writable := false, modified := false }
      flags true none

/-- The descriptor `ldb_filecache_open` obtains before its `fd > 0` test:
for a replace-open it is the `mkstemp` descriptor, for a resolve-open the
resolver's result. -/
def obtainedFd (env : OpenEnv) (replace : Bool) : Int :=
  if replace then env.newFd else (ldb_get_fresh_fd env.fetch).fd

/-- A concrete persistent record revalidated at time 10. -/
def pFresh : Pdata :=
  { filename := "/cache/files/f1", etag := "v1", last_server_update := 10 }

/-- A concrete persistent record last revalidated at time 0 (stale by
time 100). -/
def pOld : Pdata :=
  { filename := "/cache/files/old000", etag := "v1", last_server_update := 0 }

/-- A concrete resolver environment in which the cached entry is still
fresh (now = 12, revalidated at 10, window 3). -/
def envFresh : FetchEnv :=
  { dbGet := .found pFresh, now := 12, requestOk := true
    response := .notModified, newFile := "/cache/files/f2", newFd := 7
    streamOk := true, openAt := fun _ => 5 }

/-- A concrete resolver environment with a stale prior entry and a 200
full-content response carrying the new ETag "v2", whose body streams
completely. -/
def envReplaceHit : FetchEnv :=
  { dbGet := .found pOld, now := 100, requestOk := true
    response := .fullContent "v2", newFile := "/cache/files/new000", newFd := 8
    streamOk := true, openAt := fun _ => 5 }

/-- A concrete resolver environment with a stale prior entry and a 200
full-content response whose body stream fails partway
(`ne_read_response_to_fd` does not complete). -/
def envStreamFail : FetchEnv :=
  { dbGet := .found pOld, now := 100, requestOk := true
    response := .fullContent "v2", newFile := "/cache/files/part00", newFd := 8
    streamOk := false, openAt := fun _ => 5 }

/-- A concrete resolver environment whose fresh-entry reopen yields
descriptor 0. -/
def envFdZero : FetchEnv :=
  { dbGet := .found pFresh, now := 12, requestOk := true
    response := .notModified, newFile := "/cache/files/f3", newFd := 9
    streamOk := true, openAt := fun _ => 0 }

/-- A concrete read-only session handle. -/
def sdataRO : Sdata :=
  { fd := 3, filename := "", readable := true, writable := false, modified := false }

/-- A concrete writable, modified session handle. -/
def sdataW : Sdata :=
  { fd := 3, filename := "", readable := false, writable := true, modified := true }

/-- A sync environment in which every external step succeeds. -/
def syncEnvOk : SyncEnv :=
  { lseekOk := true, sessionOk := true, putOk := true, endPos := 5 }

/-- A sync environment in which the remote PUT fails. -/
def syncEnvPutFail : SyncEnv :=
  { lseekOk := true, sessionOk := true, putOk := false, endPos := 5 }

/-- A concrete write environment in which pwrite would succeed. -/
def writeEnvOk : WriteEnv :=
  { pwriteRet := 5, errnoAfter := 0 }

/-- A concrete open environment in which session, malloc and staging-file
creation all succeed and the staged descriptor is 9. -/
def openEnvOk : OpenEnv :=
  { sessionOk := true, mallocOk := true, newFileOk := true
    newFile := "/cache/files/n2", newFd := 9, fetch := envFdZero }

/-- C6, counterexample: a metadata-store get that fails with a store error
(here the explicit error message "leveldb corruption", not a not-found
condition) produces exactly the same NULL result as a plain miss, so the
failure is not surfaced to the caller as anything distinct from absent. -/
theorem c6_counterexample :
    ldb_filecache_pdata_get (.storeError "leveldb corruption") =
      ldb_filecache_pdata_get .miss := rfl

/-- C6, amended: a metadata-store get failure is logged and then returned
as the same absent (NULL) result as a miss, for every error message;
callers cannot distinguish store errors from not-found. -/
theorem c6_amended (msg : String) :
    ldb_filecache_pdata_get (.storeError msg) = none ∧
    ldb_filecache_pdata_get .miss = none :=
  ⟨rfl, rfl⟩

/-- C6, amended theorem instantiated at a concrete error message. -/
theorem c6_amended_witness :
    ldb_filecache_pdata_get (.storeError "io error") = none ∧
    ldb_filecache_pdata_get .miss = none :=
  c6_amended "io error"

/-- C4: evaluation of the access-flag derivation of `ldb_filecache_open`
at each access mode.  Because O_RDONLY is the zero access mode, the C test
`flags & O_RDONLY` is always zero, so a read-only open leaves `readable`
false, contradicting the claim; the write-only and read-write derivations
behave as claimed. -/
theorem c4_readonly_not_readable :
    deriveReadable O_RDONLY = false ∧
    deriveWritable O_RDONLY = false ∧
    deriveWritable O_WRONLY = true ∧
    deriveReadable O_WRONLY = false ∧
    deriveReadable O_RDWR = true ∧
    deriveWritable O_RDWR = true := by
  decide

/-- C7: when a record exists for the path and `now - last_server_update`
is at most REFRESH_INTERVAL, the resolver issues no remote request, its
only action is reopening the record's existing local filename, and the
returned descriptor is the one `open` yields on that filename. -/
theorem c7_freshness (env : FetchEnv) (p : Pdata)
    (hget : env.dbGet = .found p)
    (hfresh : env.now - p.last_server_update ≤ REFRESH_INTERVAL) :
    (ldb_get_fresh_fd env).fd = env.openAt p.filename ∧
    Event.remoteRequest ∉ (ldb_get_fresh_fd env).events ∧
    (ldb_get_fresh_fd env).events = [Event.openLocal p.filename] := by
  simp [ldb_get_fresh_fd, ldb_filecache_pdata_get, hget, hfresh]

/-- C7, witness: the freshness theorem applied to the concrete environment
`envFresh` (revalidated at 10, opened at 12, window 3). -/
theorem c7_freshness_witness :
    (ldb_get_fresh_fd envFresh).fd = envFresh.openAt pFresh.filename ∧
    Event.remoteRequest ∉ (ldb_get_fresh_fd envFresh).events ∧
    (ldb_get_fresh_fd envFresh).events = [Event.openLocal pFresh.filename] :=
  c7_freshness envFresh pFresh rfl (by decide)

/-- C8: a write on a handle whose writable flag is false returns zero
bytes, assigns errno EBADF (the bad-descriptor-for-writing condition POSIX
prescribes for a descriptor not open for writing), never invokes pwrite,
and leaves the session data — in particular its modified flag — exactly
as it was. -/
theorem c8_write_gating (env : WriteEnv) (s : Sdata)
    (h : s.writable = false) :
    (ldb_filecache_write env s).ret = 0 ∧
    (ldb_filecache_write env s).errnoSet = some EBADF ∧
    (ldb_filecache_write env s).pwriteCalled = false ∧
    (ldb_filecache_write env s).sdata = s ∧
    (ldb_filecache_write env s).sdata.modified = s.modified := by
  simp [ldb_filecache_write, h]

/-- C8, witness: the write-gating theorem applied to the concrete
read-only handle `sdataRO`. -/
theorem c8_write_gating_witness :
    (ldb_filecache_write writeEnvOk sdataRO).ret = 0 ∧
    (ldb_filecache_write writeEnvOk sdataRO).errnoSet = some EBADF ∧
    (ldb_filecache_write writeEnvOk sdataRO).pwriteCalled = false ∧
    (ldb_filecache_write writeEnvOk sdataRO).sdata = sdataRO ∧
    (ldb_filecache_write writeEnvOk sdataRO).sdata.modified = sdataRO.modified :=
  c8_write_gating writeEnvOk sdataRO rfl

/-- Helper: `ldb_filecache_sync` never assigns any field of the session
data; every branch returns it unchanged. -/
theorem sync_sdata_eq (env : SyncEnv) (s : Sdata) :
    (ldb_filecache_sync env s).sdata = s := by
  cases hw : s.writable <;> cases hm : s.modified <;>
    cases hl : env.lseekOk <;> cases hs : env.sessionOk <;>
    cases hp : env.putOk <;>
    simp [ldb_filecache_sync, hw, hm, hl, hs, hp]

/-- C2, counterexample: on the concrete writable, modified handle
`sdataW`, a first sync succeeds (returns 0), yet a second sync on the
handle state the first call left behind — with no modification in
between — still performs the remote upload, because the modified flag is
never cleared. -/
theorem c2_counterexample :
    (ldb_filecache_sync syncEnvOk sdataW).ret = 0 ∧
    SyncEvent.upload ∈
      (ldb_filecache_sync syncEnvOk ((ldb_filecache_sync syncEnvOk sdataW).sdata)).events := by
  decide

/-- C2, amended: sync is a no-op returning success when the handle is not
writable or not modified; sync leaves the session data unchanged — in
particular it never clears the modified flag — so a second sync on a
modified handle after a successful first sync performs the remote upload
again (whenever its seek and session steps succeed) instead of succeeding
trivially. -/
theorem c2_amended (env env2 : SyncEnv) (s : Sdata) :
    ((s.writable = false ∨ s.modified = false) →
      ldb_filecache_sync env s = { ret := 0, sdata := s, events := [] }) ∧
    (ldb_filecache_sync env s).sdata = s ∧
    (s.writable = true → s.modified = true → env2.lseekOk = true →
      env2.sessionOk = true →
      SyncEvent.upload ∈
        (ldb_filecache_sync env2 ((ldb_filecache_sync env s).sdata)).events) := by
  refine ⟨?_, sync_sdata_eq env s, ?_⟩
  · rintro (h | h)
    · simp [ldb_filecache_sync, h]
    · cases hw : s.writable <;> simp [ldb_filecache_sync, hw, h]
  · intro hw hm hl hs
    rw [sync_sdata_eq]
    cases hp : env2.putOk <;> simp [ldb_filecache_sync, hw, hm, hl, hs, hp]

/-- C2, amended theorem instantiated at the concrete handles `sdataRO`
and `sdataW`. -/
theorem c2_amended_witness :
    ldb_filecache_sync syncEnvOk sdataRO = { ret := 0, sdata := sdataRO, events := [] } ∧
    (ldb_filecache_sync syncEnvOk sdataW).sdata = sdataW ∧
    SyncEvent.upload ∈
      (ldb_filecache_sync syncEnvOk ((ldb_filecache_sync syncEnvOk sdataW).sdata)).events :=
  ⟨(c2_amended syncEnvOk syncEnvOk sdataRO).1 (Or.inl rfl),
   (c2_amended syncEnvOk syncEnvOk sdataW).2.1,
   (c2_amended syncEnvOk syncEnvOk sdataW).2.2 rfl rfl rfl rfl⟩

/-- C1, counterexample: on the concrete writable, modified handle
`sdataW` (whose descriptor 3 is a valid, open descriptor) with a failing
remote PUT, release returns the sync error -1 and does not close the
descriptor, so release returns with the descriptor still open. -/
theorem c1_counterexample :
    (ldb_filecache_release syncEnvPutFail sdataW).closed = false ∧
    (ldb_filecache_release syncEnvPutFail sdataW).ret = -1 ∧
    sdataW.fd ≥ 0 := by
  decide

/-- C1, amended: release performs sync first; when sync fails, release
returns the sync error without closing the descriptor, so the descriptor
remains open; only when sync does not fail does release close the
descriptor (which `ldb_filecache_close` does whenever the descriptor is
nonnegative) and return 0. -/
theorem c1_amended (env : SyncEnv) (s : Sdata) :
    ((ldb_filecache_sync env s).ret < 0 →
      (ldb_filecache_release env s).ret = (ldb_filecache_sync env s).ret ∧
      (ldb_filecache_release env s).closed = false) ∧
    (0 ≤ (ldb_filecache_sync env s).ret →
      (ldb_filecache_release env s).ret = 0 ∧
      (ldb_filecache_release env s).closed = ldb_filecache_close s) := by
  constructor
  · intro h
    simp [ldb_filecache_release, h]
  · intro h
    have hn : ¬ (ldb_filecache_sync env s).ret < 0 := by omega
    simp [ldb_filecache_release, hn, sync_sdata_eq]

/-- C1, amended theorem instantiated at the concrete handle `sdataW`,
once with a failing PUT (sync fails, descriptor not closed) and once with
a succeeding PUT (descriptor closed). -/
theorem c1_amended_witness :
    ((ldb_filecache_release syncEnvPutFail sdataW).ret =
        (ldb_filecache_sync syncEnvPutFail sdataW).ret ∧
      (ldb_filecache_release syncEnvPutFail sdataW).closed = false) ∧
    ((ldb_filecache_release syncEnvOk sdataW).ret = 0 ∧
      (ldb_filecache_release syncEnvOk sdataW).closed = ldb_filecache_close sdataW) :=
  ⟨(c1_amended syncEnvPutFail sdataW).1 (by decide),
   (c1_amended syncEnvOk sdataW).2 (by decide)⟩

/-- Helper: the exact result of `ldb_get_fresh_fd` on a stale prior entry
answered with a 200 full-content response: the body stream into the new
file either completes or fails, but in both cases a record keeping the
OLD etag and carrying the new filename and the current time is persisted
afterwards, and the old file is unlinked last. -/
theorem fresh_fd_200_with_entry (env : FetchEnv) (p : Pdata) (e : String)
    (hget : env.dbGet = .found p)
    (hstale : ¬ env.now - p.last_server_update ≤ REFRESH_INTERVAL)
    (hreq : env.requestOk = true)
    (hresp : env.response = .fullContent e) :
    ldb_get_fresh_fd env =
      { fd := env.newFd
        events := [Event.remoteRequest,
                   if env.streamOk then Event.stageComplete env.newFile
                   else Event.stageFailed env.newFile,
                   Event.persistEntry
                     { p with filename := env.newFile, last_server_update := env.now },
                   Event.unlinkFile p.filename]
        persisted :=
          some { p with filename := env.newFile, last_server_update := env.now } } := by
  simp [ldb_get_fresh_fd, ldb_filecache_pdata_get, hget, hstale, hreq, hresp]

/-- C3, counterexample: in the concrete environment `envReplaceHit` a
prior entry with validator "v1" receives a 200 whose response ETag is
"v2", yet the record persisted by the resolver still carries validator
"v1" — the validator is not updated, contradicting the claim. -/
theorem c3_counterexample :
    (ldb_get_fresh_fd envReplaceHit).persisted =
      some { filename := "/cache/files/new000", etag := "v1", last_server_update := 100 } ∧
    envReplaceHit.response = HttpResponse.fullContent "v2" ∧
    "v1" ≠ "v2" := by
  decide

/-- C3, amended: on a 200 response for a path that already had an entry,
the resolver updates the entry's local filename to the newly staged file
and its revalidation time to now before persisting, but leaves the
entry's validator unchanged — the response ETag is captured only when no
prior entry existed. -/
theorem c3_amended (env : FetchEnv) (p : Pdata) (e : String)
    (hget : env.dbGet = .found p)
    (hstale : ¬ env.now - p.last_server_update ≤ REFRESH_INTERVAL)
    (hreq : env.requestOk = true)
    (hresp : env.response = .fullContent e) :
    ((ldb_get_fresh_fd env).persisted).map Pdata.filename = some env.newFile ∧
    ((ldb_get_fresh_fd env).persisted).map Pdata.etag = some p.etag ∧
    ((ldb_get_fresh_fd env).persisted).map Pdata.last_server_update = some env.now ∧
    Event.persistEntry { p with filename := env.newFile, last_server_update := env.now }
      ∈ (ldb_get_fresh_fd env).events := by
  rw [fresh_fd_200_with_entry env p e hget hstale hreq hresp]
  refine ⟨rfl, rfl, rfl, ?_⟩
  simp

/-- C3, amended theorem instantiated at the concrete environment
`envReplaceHit` with the prior entry `pOld`. -/
theorem c3_amended_witness :
    ((ldb_get_fresh_fd envReplaceHit).persisted).map Pdata.filename =
      some envReplaceHit.newFile ∧
    ((ldb_get_fresh_fd envReplaceHit).persisted).map Pdata.etag = some pOld.etag ∧
    ((ldb_get_fresh_fd envReplaceHit).persisted).map Pdata.last_server_update =
      some envReplaceHit.now ∧
    Event.persistEntry
        { pOld with filename := envReplaceHit.newFile, last_server_update := envReplaceHit.now }
      ∈ (ldb_get_fresh_fd envReplaceHit).events :=
  c3_amended envReplaceHit pOld "v2" rfl (by decide) rfl rfl

/-- C9, counterexample: in the concrete environment `envStreamFail` a
stale prior entry receives a 200 whose body stream fails partway
(`ne_read_response_to_fd` does not complete; the C code ignores its
return value), yet the resolver still persists the entry pointing at the
incompletely staged file — no stage-completion precedes the persist — and
still unlinks the old generation.  This refutes the claim that the entry
is never persisted pointing at a file whose body has not been fully
streamed. -/
theorem c9_counterexample :
    (ldb_get_fresh_fd envStreamFail).persisted =
      some { filename := "/cache/files/part00", etag := "v1", last_server_update := 100 } ∧
    Event.persistEntry
        { filename := "/cache/files/part00", etag := "v1", last_server_update := 100 }
      ∈ (ldb_get_fresh_fd envStreamFail).events ∧
    Event.stageComplete "/cache/files/part00" ∉ (ldb_get_fresh_fd envStreamFail).events ∧
    Event.unlinkFile pOld.filename ∈ (ldb_get_fresh_fd envStreamFail).events := by
  decide

/-- C9, amended: a full-content replacement of an existing entry always
makes its three calls in the order stage the body → persist the updated
entry → unlink the old generation's directory entry, and the persisted
entry points at the new staging file; but because the results of
`new_cache_file` and `ne_read_response_to_fd` are ignored, the entry is
persisted and the old file unlinked whether or not the body was fully
streamed: only when the stream completes is the entry persisted strictly
after a fully staged body, while on a failed stream the entry is still
persisted (now pointing at a partially written file) without any
stage-completion, and the old entry is still unlinked. -/
theorem c9_amended (env : FetchEnv) (p : Pdata) (e : String)
    (hget : env.dbGet = .found p)
    (hstale : ¬ env.now - p.last_server_update ≤ REFRESH_INTERVAL)
    (hreq : env.requestOk = true)
    (hresp : env.response = .fullContent e) :
    (ldb_get_fresh_fd env).events =
      [Event.remoteRequest,
       if env.streamOk then Event.stageComplete env.newFile
       else Event.stageFailed env.newFile,
       Event.persistEntry { p with filename := env.newFile, last_server_update := env.now },
       Event.unlinkFile p.filename] ∧
    (ldb_get_fresh_fd env).persisted =
      some { p with filename := env.newFile, last_server_update := env.now } ∧
    (env.streamOk = true →
      ∃ i j k, i < j ∧ j < k ∧
        (ldb_get_fresh_fd env).events.get? i = some (Event.stageComplete env.newFile) ∧
        (ldb_get_fresh_fd env).events.get? j =
          some (Event.persistEntry
            { p with filename := env.newFile, last_server_update := env.now }) ∧
        (ldb_get_fresh_fd env).events.get? k = some (Event.unlinkFile p.filename)) ∧
    (env.streamOk = false →
      Event.stageComplete env.newFile ∉ (ldb_get_fresh_fd env).events ∧
      Event.persistEntry { p with filename := env.newFile, last_server_update := env.now }
        ∈ (ldb_get_fresh_fd env).events ∧
      Event.unlinkFile p.filename ∈ (ldb_get_fresh_fd env).events) := by
  rw [fresh_fd_200_with_entry env p e hget hstale hreq hresp]
  refine ⟨rfl, rfl, ?_, ?_⟩
  · intro hstream
    exact ⟨1, 2, 3, by omega, by omega, by simp [hstream], rfl, rfl⟩
  · intro hstream
    simp [hstream]

/-- C9, amended theorem instantiated twice: at `envReplaceHit` (the body
streams fully, so staging completes strictly before persist, which
precedes the unlink) and at `envStreamFail` (the stream fails, yet the
entry is still persisted without a stage-completion and the old file
still unlinked). -/
theorem c9_amended_witness :
    (ldb_get_fresh_fd envReplaceHit).persisted =
      some { pOld with filename := envReplaceHit.newFile
                       last_server_update := envReplaceHit.now } ∧
    (∃ i j k, i < j ∧ j < k ∧
      (ldb_get_fresh_fd envReplaceHit).events.get? i =
        some (Event.stageComplete envReplaceHit.newFile) ∧
      (ldb_get_fresh_fd envReplaceHit).events.get? j =
        some (Event.persistEntry
          { pOld with filename := envReplaceHit.newFile
                      last_server_update := envReplaceHit.now }) ∧
      (ldb_get_fresh_fd envReplaceHit).events.get? k =
        some (Event.unlinkFile pOld.filename)) ∧
    (Event.stageComplete envStreamFail.newFile ∉ (ldb_get_fresh_fd envStreamFail).events ∧
      Event.persistEntry
          { pOld with filename := envStreamFail.newFile
                      last_server_update := envStreamFail.now }
        ∈ (ldb_get_fresh_fd envStreamFail).events ∧
      Event.unlinkFile pOld.filename ∈ (ldb_get_fresh_fd envStreamFail).events) :=
  ⟨(c9_amended envReplaceHit pOld "v2" rfl (by decide) rfl rfl).2.1,
   (c9_amended envReplaceHit pOld "v2" rfl (by decide) rfl rfl).2.2.1 rfl,
   (c9_amended envStreamFail pOld "v2" rfl (by decide) rfl rfl).2.2.2 rfl⟩

/-- C5, counterexample: on the concrete environment `openEnvOk`, a
replace-open does bypass the resolver and does publish size-zero
attributes, but the handle it installs has its modified flag already set
to true at open time, contradicting the claim that modified is left false
until the first successful write. -/
theorem c5_counterexample :
    (ldb_filecache_open openEnvOk O_RDWR true).resolverCalled = false ∧
    (ldb_filecache_open openEnvOk O_RDWR true).statSizePublished = some 0 ∧
    ((ldb_filecache_open openEnvOk O_RDWR true).fh).map Sdata.modified = some true := by
  decide

/-- C5, amended: a replace-open allocates a brand-new staging file
directly without invoking the freshness resolver and immediately
publishes size-zero synthetic attributes to the external attribute cache,
but it sets the handle's modified flag to true at open time rather than
leaving it false. -/
theorem c5_amended (env : OpenEnv) (flags : Nat)
    (hs : env.sessionOk = true) (hm : env.mallocOk = true)
    (hn : env.newFileOk = true) (hfd : env.newFd > 0) :
    (ldb_filecache_open env flags true).resolverCalled = false ∧
    (ldb_filecache_open env flags true).statSizePublished = some 0 ∧
    (ldb_filecache_open env flags true).fh =
      some { fd := env.newFd, filename := env.newFile
             readable := deriveReadable flags, writable := deriveWritable flags
             modified := true } := by
  simp [ldb_filecache_open, openFinish, hs, hm, hn, hfd]

/-- C5, amended theorem instantiated at the concrete environment
`openEnvOk` with a read-write mode. -/
theorem c5_amended_witness :
    (ldb_filecache_open openEnvOk O_RDWR true).resolverCalled = false ∧
    (ldb_filecache_open openEnvOk O_RDWR true).statSizePublished = some 0 ∧
    (ldb_filecache_open openEnvOk O_RDWR true).fh =
      some { fd := openEnvOk.newFd, filename := openEnvOk.newFile
             readable := deriveReadable O_RDWR, writable := deriveWritable O_RDWR
             modified := true } :=
  c5_amended openEnvOk O_RDWR rfl rfl rfl (by decide)

/-- C10: once the session and the allocation succeed (and, for a
replace-open, the staging file is created), open returns 0 and installs
the session data into the caller's file-info exactly when the obtained
descriptor is strictly positive; when the obtained descriptor is 0, open
returns the negative value -1, sets the handle slot to none, and frees
the session data. -/
theorem c10_open_fd_gate (env : OpenEnv) (flags : Nat) (replace : Bool)
    (hs : env.sessionOk = true) (hm : env.mallocOk = true)
    (hn : replace = true → env.newFileOk = true) :
    (((ldb_filecache_open env flags replace).ret = 0 ∧
        (ldb_filecache_open env flags replace).fh.isSome = true) ↔
      obtainedFd env replace > 0) ∧
    (obtainedFd env replace = 0 →
      (ldb_filecache_open env flags replace).ret = -1 ∧
      (ldb_filecache_open env flags replace).fh = none ∧
      (ldb_filecache_open env flags replace).sdataFreed = true) := by
  cases replace with
  | false =>
    by_cases hfd : (ldb_get_fresh_fd env.fetch).fd > 0 <;>
      simp [ldb_filecache_open, openFinish, obtainedFd, hs, hm, hfd] <;>
      omega
  | true =>
    have hnf := hn rfl
    by_cases hfd : env.newFd > 0 <;>
      simp [ldb_filecache_open, openFinish, obtainedFd, hs, hm, hnf, hfd] <;>
      omega

/-- C10, theorem instantiated at the concrete environment `openEnvOk` in
resolve mode, whose fresh-file reopen yields descriptor 0: open fails
with -1, installs no handle, and frees the session data. -/
theorem c10_open_fd_gate_witness :
    ((((ldb_filecache_open openEnvOk O_RDWR false).ret = 0 ∧
        (ldb_filecache_open openEnvOk O_RDWR false).fh.isSome = true) ↔
      obtainedFd openEnvOk false > 0) ∧
     (obtainedFd openEnvOk false = 0 →
       (ldb_filecache_open openEnvOk O_RDWR false).ret = -1 ∧
       (ldb_filecache_open openEnvOk O_RDWR false).fh = none ∧
       (ldb_filecache_open openEnvOk O_RDWR false).sdataFreed = true)) :=
  c10_open_fd_gate openEnvOk O_RDWR false rfl rfl (fun _ => rfl)

end LdbFilecache
